import Mathlib

/-!
Verification of the pdf_compressor pipeline (src/pdf_compressor.py).

The development shallowly embeds the module: `CompressionOptions` mirrors the
dataclass of the same name, an `Env` record captures the outcomes of the
external world (filesystem, PyMuPDF, pikepdf, Ghostscript), and each method of
`PDFCompressor` becomes a Lean function returning an `Except` value together
with the list of filesystem events it performs.  Machine-level details that no
claim depends on (PDF bytes, image contents) are abstracted away; the control
flow, error messages, event order and the derived intermediate file names
follow the Python source line by line.
-/

namespace PdfCompressor

/-! ## Path names

`pathlib.Path.with_suffix('')` drops the extension of the final path
component.  The functions below model that computation on the underlying
character list of an (already normalised) path string: `splitName` separates
the directory part from the final component at the last slash, and
`splitLastDot` separates a name at its last dot.  Python treats a dot that is
the first or the last character of the name as not starting a suffix, which
`pySplitExt` encodes. -/

/-- Split a character list at the last slash: returns the directory part
(ending with the slash, possibly empty) and the final component. -/
def splitName : List Char → List Char × List Char
  | [] => ([], [])
  | c :: cs =>
    let p := splitName cs
    if p.1 = [] ∧ c ≠ '/' then ([], c :: p.2) else (c :: p.1, p.2)

/-- Split a character list at the last dot: the second component is the
last dot together with everything after it, or `[]` when there is no dot. -/
def splitLastDot : List Char → List Char × List Char
  | [] => ([], [])
  | c :: cs =>
    let p := splitLastDot cs
    if p.2 = [] then
      if c = '.' then ([], c :: cs) else (c :: p.1, [])
    else (c :: p.1, p.2)

/-- Python suffix rule for a path name: the part from the last dot, unless
that dot is the first character of the name or its last character. -/
def pySplitExt (name : List Char) : List Char × List Char :=
  let p := splitLastDot name
  if p.1 = [] ∨ p.2.length ≤ 1 then (name, []) else p

/-- Model of `str(path.with_suffix(''))`: the path with the suffix of its
final component removed. -/
def withSuffixEmpty (p : String) : String :=
  ⟨(splitName p.data).1 ++ (pySplitExt (splitName p.data).2).1⟩

/-- The suffix that `withSuffixEmpty` removed. -/
def pySuffix (p : String) : String :=
  ⟨(pySplitExt (splitName p.data).2).2⟩

/-- Model of the intermediate artifact names built by the three stages:
`f"\x7bself.output_path.with_suffix('')\x7d_\x7bos.getpid()\x7d_<tag>.pdf"`
with tag `pymupdf`, `pikepdf` or `gs_<quality>`. -/
def tempName (outputPath : String) (pid : Nat) (tag : String) : String :=
  withSuffixEmpty outputPath ++ "_" ++ toString pid ++ "_" ++ tag ++ ".pdf"

/-! ## Data model

`CompressionOptions` mirrors the dataclass field for field, defaults
included.  `Env` records the outcomes supplied by the outside world during
one run: whether the input file exists, whether each fallible library call
succeeds, which executable names are installed, and the Ghostscript
subprocess result.  `Ev` is the trace of filesystem effects a run performs;
`Err` mirrors the Python exception classes raised by the module. -/

structure CompressionOptions where
  image_quality : Int := 60
  dpi_threshold : Int := 100
  dpi_target : Int := 72
  to_grayscale : Bool := false
  remove_metadata : Bool := true
  subset_fonts : Bool := true
  remove_images : Bool := false
  flatten_forms : Bool := true
  remove_annotations : Bool := true
  use_ghostscript : Bool := false
  gs_quality : String := "ebook"
  remove_unreferenced : Bool := false
deriving Repr, DecidableEq

/-- Outcomes of the external world during one run.  A `...Ok` field set to
`false` means the corresponding library call raises an exception. -/
structure Env where
  pid : Nat
  inputExists : Bool
  fitzOpenOk : Bool
  scrubOk : Bool
  subsetFontsOk : Bool
  rewriteImagesOk : Bool
  redactOk : Bool
  flattenFormsOk : Bool
  deleteAnnotsOk : Bool
  saveOk : Bool
  pikepdfInstalled : Bool
  pikepdfOpenOk : Bool
  pikepdfSaveOk : Bool
  gsInstalled : List String
  gsReturncode : Int
  gsStderr : String
deriving Repr, DecidableEq

/-- Python exception classes raised by the module.  `LibError` stands for an
arbitrary exception escaping a library call, labelled with the call. -/
inductive Err where
  | FileNotFoundError (msg : String)
  | RuntimeError (msg : String)
  | ValueError (msg : String)
  | LibError (op : String)
deriving Repr, DecidableEq

/-- Filesystem events.  `mkdirParents p` creates the parent directories of
`p` (it never creates or writes the file at `p` itself); `runProc` records a
subprocess invocation with its argument list. -/
inductive Ev where
  | readFile (p : String)
  | writeFile (p : String)
  | removeFile (p : String)
  | mkdirParents (p : String)
  | moveFile (src dst : String)
  | runProc (args : List String)
deriving Repr, DecidableEq

/-- Model of `str.lower()` (ASCII range, which covers every preset),
mapping `Char.toLower` over the characters of the string. -/
def pyLower (s : String) : String := ⟨s.data.map Char.toLower⟩

/-- The executable candidates probed with `shutil.which`, in source order. -/
def gsCandidates : List String := ["gs", "gswin64c", "gswin64c.exe", "gswin32c.exe"]

/-- The fixed quality preset enumeration from `_compress_with_ghostscript`. -/
def gsPresets : List String := ["screen", "ebook", "printer", "prepress", "default"]

/-- The Ghostscript argument vector built in `_compress_with_ghostscript`. -/
def gsArgs (gsCmd quality outputPath inputPdf : String) : List String :=
  [gsCmd, "-sDEVICE=pdfwrite", "-dCompatibilityLevel=1.4",
   "-dPDFSETTINGS=/" ++ quality, "-dNOPAUSE", "-dQUIET", "-dBATCH",
   "-sOutputFile=" ++ outputPath, inputPdf]

/-! ## Stages

Each stage returns the result of the Python method (`Except` value) paired
with the list of filesystem events it performed, in order. -/

/-- `PDFCompressor._optimize_with_pymupdf`.  In the source only
`doc.subset_fonts()`, `doc.rewrite_images(...)` and `doc.flatten_forms()`
are wrapped in `try/except Exception: pass`, so the fields
`subsetFontsOk`, `rewriteImagesOk` and `flattenFormsOk` of the
environment do not influence the outcome; the unguarded calls
(`doc.scrub`, the redaction loop when `remove_images` is set, the
annotation-deletion loop, `fitz.open` and `doc.save`) propagate their
exception.  A failing `doc.save` may leave a partial file at the
intermediate path, which the `writeFile` event in that branch records. -/
def optimizeWithPymupdf (env : Env) (o : CompressionOptions)
    (inputPath outputPath : String) : Except Err String × List Ev :=
  if !env.fitzOpenOk then
    (.error (.LibError "fitz.open"), [.readFile inputPath])
  else if o.remove_metadata && !env.scrubOk then
    (.error (.LibError "doc.scrub"), [.readFile inputPath])
  else if o.remove_images && !env.redactOk then
    (.error (.LibError "apply_redactions"), [.readFile inputPath])
  else if o.remove_annotations && !env.deleteAnnotsOk then
    (.error (.LibError "delete_annot"), [.readFile inputPath])
  else
    let tmp := tempName outputPath env.pid "pymupdf"
    if !env.saveOk then
      (.error (.LibError "doc.save"), [.readFile inputPath, .writeFile tmp])
    else
      (.ok tmp, [.readFile inputPath, .writeFile tmp])

/-- `PDFCompressor._cleanup_with_pikepdf`: raises `RuntimeError` when the
`import pikepdf` fails, otherwise writes the new artifact and removes its
input artifact only after a successful save. -/
def cleanupWithPikepdf (env : Env) (inputPdf outputPath : String) :
    Except Err String × List Ev :=
  if !env.pikepdfInstalled then
    (.error (.RuntimeError
        "pikepdf is not installed (set remove_unreferenced=False or install pikepdf)."),
     [])
  else
    let outp := tempName outputPath env.pid "pikepdf"
    if !env.pikepdfOpenOk then
      (.error (.LibError "pikepdf.open"), [.readFile inputPdf])
    else if !env.pikepdfSaveOk then
      (.error (.LibError "pdf.save"), [.readFile inputPdf, .writeFile outp])
    else
      (.ok outp, [.readFile inputPdf, .writeFile outp, .removeFile inputPdf])

/-- `PDFCompressor._compress_with_ghostscript`: locates the executable,
validates the lowercased preset, runs the subprocess (which writes the new
artifact), and removes its input artifact only on exit status zero. -/
def compressWithGhostscript (env : Env) (o : CompressionOptions)
    (inputPdf outputPath : String) : Except Err String × List Ev :=
  match gsCandidates.find? (fun c => env.gsInstalled.contains c) with
  | none =>
    (.error (.RuntimeError
        "Ghostscript not found; install it or set use_ghostscript=False."), [])
  | some gsCmd =>
    let quality := pyLower o.gs_quality
    if !(gsPresets.contains quality) then
      (.error (.ValueError ("Invalid Ghostscript quality preset: " ++ quality)), [])
    else
      let outp := tempName outputPath env.pid ("gs_" ++ quality)
      let args := gsArgs gsCmd quality outp inputPdf
      if env.gsReturncode != 0 then
        (.error (.RuntimeError ("Ghostscript failed: " ++ env.gsStderr)),
         [.runProc args, .writeFile outp])
      else
        (.ok outp, [.runProc args, .writeFile outp, .removeFile inputPdf])

/-- `PDFCompressor.compress`: input-existence check, the mandatory PyMuPDF
stage, the two optional stages gated by their flags, and the final publish
(`mkdir(parents=True, exist_ok=True)` on the output parent followed by
`shutil.move`). -/
def compress (env : Env) (o : CompressionOptions)
    (inputPath outputPath : String) : Except Err String × List Ev :=
  if !env.inputExists then
    (.error (.FileNotFoundError
        ("Input PDF \x27" ++ inputPath ++ "\x27 does not exist.")), [])
  else
    match optimizeWithPymupdf env o inputPath outputPath with
    | (.error e, t1) => (.error e, t1)
    | (.ok tmp1, t1) =>
      match (if o.remove_unreferenced then cleanupWithPikepdf env tmp1 outputPath
             else (.ok tmp1, [])) with
      | (.error e, t2) => (.error e, t1 ++ t2)
      | (.ok tmp2, t2) =>
        match (if o.use_ghostscript then compressWithGhostscript env o tmp2 outputPath
               else (.ok tmp2, [])) with
        | (.error e, t3) => (.error e, t1 ++ t2 ++ t3)
        | (.ok tmp3, t3) =>
          (.ok outputPath,
           t1 ++ t2 ++ t3 ++ [.mkdirParents outputPath, .moveFile tmp3 outputPath])

/-! ## Event predicates used by the frame claims -/

/-- Whether an event writes, removes or replaces the file at path `p`.
Reads do not touch the file; creating parent directories of a path does not
touch the file at that path. -/
def touchesPath (p : String) : Ev → Bool
  | .writeFile q => q == p
  | .removeFile q => q == p
  | .moveFile src dst => src == p || dst == p
  | .readFile _ => false
  | .mkdirParents _ => false
  | .runProc _ => false

/-- The three intermediate artifact names a run with the given options can
derive for the given output path. -/
def stageTempNames (o : CompressionOptions) (pid : Nat) (out : String) :
    List String :=
  [tempName out pid "pymupdf", tempName out pid "pikepdf",
   tempName out pid ("gs_" ++ pyLower o.gs_quality)]

/-- The write discipline of the pipeline: every file write and every file
removal targets a derived intermediate name, the only move lands on the
output path and starts from a derived intermediate name, and the only
directory creation is for the output path's parents. -/
def writeDiscipline (o : CompressionOptions) (pid : Nat) (out : String) :
    Ev → Bool
  | .writeFile p => decide (p ∈ stageTempNames o pid out)
  | .removeFile p => decide (p ∈ stageTempNames o pid out)
  | .moveFile src dst => decide (src ∈ stageTempNames o pid out) && (dst == out)
  | .mkdirParents p => p == out
  | .readFile _ => true
  | .runProc _ => true

/-- Shape of an event emitted by a stage (never a move, never a directory
creation): a read of the run's input, a subprocess invocation, or a
read/write/removal of one of the derived intermediate names. -/
def stageEv (o : CompressionOptions) (pid : Nat) (out inp : String) (ev : Ev) :
    Prop :=
  ev = .readFile inp ∨ (∃ a, ev = .runProc a) ∨
  ∃ p, p ∈ stageTempNames o pid out ∧
    (ev = .readFile p ∨ ev = .writeFile p ∨ ev = .removeFile p)

/-- A fully cooperative environment used by the concrete witness runs: the
input exists, every library call succeeds, pikepdf is importable, `gs` is on
the path and exits with status zero. -/
def envAllOk : Env :=
  { pid := 7, inputExists := true, fitzOpenOk := true, scrubOk := true,
    subsetFontsOk := true, rewriteImagesOk := true, redactOk := true,
    flattenFormsOk := true, deleteAnnotsOk := true, saveOk := true,
    pikepdfInstalled := true, pikepdfOpenOk := true, pikepdfSaveOk := true,
    gsInstalled := ["gs"], gsReturncode := 0, gsStderr := "" }

theorem splitName_append (l : List Char) :
    (splitName l).1 ++ (splitName l).2 = l := by
  induction l with
  | nil => rfl
  | cons c cs ih =>
    simp only [splitName]
    split
    · next h =>
      have h1 : (splitName cs).1 = [] := h.1
      have := ih
      rw [h1] at this
      simpa using this
    · simpa using ih

theorem splitLastDot_append (l : List Char) :
    (splitLastDot l).1 ++ (splitLastDot l).2 = l := by
  induction l with
  | nil => rfl
  | cons c cs ih =>
    simp only [splitLastDot]
    split
    · next h =>
      split
      · next hc => simp [hc]
      · next =>
        have := ih
        rw [h] at this
        simpa using this
    · simpa using ih

theorem splitLastDot_ext (l : List Char) :
    (splitLastDot l).2 = [] ∨ ∃ r, (splitLastDot l).2 = '.' :: r := by
  induction l with
  | nil => exact Or.inl rfl
  | cons c cs ih =>
    simp only [splitLastDot]
    split
    · split
      · next hc => exact Or.inr ⟨cs, by simp [hc]⟩
      · exact Or.inl rfl
    · simpa using ih

theorem pySplitExt_append (name : List Char) :
    (pySplitExt name).1 ++ (pySplitExt name).2 = name := by
  by_cases h : (splitLastDot name).1 = [] ∨ (splitLastDot name).2.length ≤ 1
  · simp [pySplitExt, h]
  · simpa [pySplitExt, h] using splitLastDot_append name

theorem pySplitExt_ext (name : List Char) :
    (pySplitExt name).2 = [] ∨ ∃ r, (pySplitExt name).2 = '.' :: r := by
  by_cases h : (splitLastDot name).1 = [] ∨ (splitLastDot name).2.length ≤ 1
  · simp [pySplitExt, h]
  · simpa [pySplitExt, h] using splitLastDot_ext name

theorem stem_suffix_eq (p : String) :
    (withSuffixEmpty p).data ++ (pySuffix p).data = p.data := by
  show ((splitName p.data).1 ++ (pySplitExt (splitName p.data).2).1)
      ++ (pySplitExt (splitName p.data).2).2 = p.data
  rw [List.append_assoc, pySplitExt_append, splitName_append]

theorem pySuffix_shape (p : String) :
    (pySuffix p).data = [] ∨ ∃ r, (pySuffix p).data = '.' :: r := by
  show (pySplitExt (splitName p.data).2).2 = [] ∨ _
  exact pySplitExt_ext (splitName p.data).2

/-- Helper: an intermediate artifact name is never the output path itself,
because the characters appended after the output stem begin with an
underscore while the removed suffix is empty or begins with a dot. -/
theorem tempName_ne (out : String) (pid : Nat) (tag : String) :
    tempName out pid tag ≠ out := by
  intro h
  have hd : (tempName out pid tag).data = out.data := congrArg String.data h
  have htmp : (tempName out pid tag).data
      = (withSuffixEmpty out).data
        ++ ('_' :: ((toString pid ++ "_" ++ tag ++ ".pdf").data)) := by
    show ((((withSuffixEmpty out ++ "_") ++ toString pid) ++ "_") ++ tag
        ++ ".pdf").data = _
    simp only [String.data_append]
    simp
  rw [htmp, ← stem_suffix_eq out] at hd
  have hcancel := List.append_cancel_left hd
  rcases pySuffix_shape out with hs | ⟨r, hs⟩
  · rw [hs] at hcancel
    exact List.noConfusion hcancel
  · rw [hs] at hcancel
    have : '_' = '.' := by
      have := List.head_eq_of_cons_eq hcancel.symm
      exact this.symm
    simp at this

theorem stageTempNames_ne_out (o : CompressionOptions) (pid : Nat)
    (out : String) : ∀ p ∈ stageTempNames o pid out, p ≠ out := by
  intro p hp
  simp only [stageTempNames, List.mem_cons, List.not_mem_nil, or_false] at hp
  rcases hp with h | h | h <;> subst h <;> exact tempName_ne _ _ _

theorem opt_events (env : Env) (o : CompressionOptions) (inp out : String) :
    ∀ ev ∈ (optimizeWithPymupdf env o inp out).2,
      ev = Ev.readFile inp ∨
      ev = Ev.writeFile (tempName out env.pid "pymupdf") := by
  intro ev hev
  simp only [optimizeWithPymupdf] at hev
  repeat' split at hev
  all_goals simp_all

theorem opt_ok (env : Env) (o : CompressionOptions) (inp out tmp : String)
    (t : List Ev) (h : optimizeWithPymupdf env o inp out = (.ok tmp, t)) :
    tmp = tempName out env.pid "pymupdf" := by
  simp only [optimizeWithPymupdf] at h
  repeat' split at h
  all_goals simp_all

theorem cleanup_events (env : Env) (inPdf out : String) :
    ∀ ev ∈ (cleanupWithPikepdf env inPdf out).2,
      ev = Ev.readFile inPdf ∨
      ev = Ev.writeFile (tempName out env.pid "pikepdf") ∨
      ev = Ev.removeFile inPdf := by
  intro ev hev
  simp only [cleanupWithPikepdf] at hev
  repeat' split at hev
  all_goals simp_all
  all_goals tauto

theorem cleanup_ok (env : Env) (inPdf out tmp : String) (t : List Ev)
    (h : cleanupWithPikepdf env inPdf out = (.ok tmp, t)) :
    tmp = tempName out env.pid "pikepdf" := by
  simp only [cleanupWithPikepdf] at h
  repeat' split at h
  all_goals simp_all

theorem gs_events (env : Env) (o : CompressionOptions) (inPdf out : String) :
    ∀ ev ∈ (compressWithGhostscript env o inPdf out).2,
      (∃ a, ev = Ev.runProc a) ∨
      ev = Ev.writeFile (tempName out env.pid ("gs_" ++ pyLower o.gs_quality)) ∨
      ev = Ev.removeFile inPdf := by
  intro ev hev
  simp only [compressWithGhostscript] at hev
  repeat' split at hev
  all_goals simp_all
  all_goals aesop

theorem gs_ok (env : Env) (o : CompressionOptions) (inPdf out tmp : String)
    (t : List Ev)
    (h : compressWithGhostscript env o inPdf out = (.ok tmp, t)) :
    tmp = tempName out env.pid ("gs_" ++ pyLower o.gs_quality) := by
  simp only [compressWithGhostscript] at h
  repeat' split at h
  all_goals simp_all

theorem mem_stageTempNames_pymupdf (o : CompressionOptions) (pid : Nat)
    (out : String) : tempName out pid "pymupdf" ∈ stageTempNames o pid out := by
  simp [stageTempNames]

theorem mem_stageTempNames_pikepdf (o : CompressionOptions) (pid : Nat)
    (out : String) : tempName out pid "pikepdf" ∈ stageTempNames o pid out := by
  simp [stageTempNames]

theorem mem_stageTempNames_gs (o : CompressionOptions) (pid : Nat)
    (out : String) :
    tempName out pid ("gs_" ++ pyLower o.gs_quality) ∈ stageTempNames o pid out := by
  simp [stageTempNames]

/-- Every event of a stage trace whose input artifact is itself a derived
intermediate name has the `stageEv` shape. -/
theorem cleanup_stageEv (env : Env) (o : CompressionOptions)
    (inPdf out inp : String) (hm : inPdf ∈ stageTempNames o env.pid out) :
    ∀ ev ∈ (cleanupWithPikepdf env inPdf out).2, stageEv o env.pid out inp ev := by
  intro ev hev
  rcases cleanup_events env inPdf out ev hev with h | h | h
  · exact Or.inr (Or.inr ⟨inPdf, hm, Or.inl h⟩)
  · exact Or.inr (Or.inr ⟨_, mem_stageTempNames_pikepdf o env.pid out, Or.inr (Or.inl h)⟩)
  · exact Or.inr (Or.inr ⟨inPdf, hm, Or.inr (Or.inr h)⟩)

theorem gs_stageEv (env : Env) (o : CompressionOptions)
    (inPdf out inp : String) (hm : inPdf ∈ stageTempNames o env.pid out) :
    ∀ ev ∈ (compressWithGhostscript env o inPdf out).2,
      stageEv o env.pid out inp ev := by
  intro ev hev
  rcases gs_events env o inPdf out ev hev with h | h | h
  · exact Or.inr (Or.inl h)
  · exact Or.inr (Or.inr ⟨_, mem_stageTempNames_gs o env.pid out, Or.inr (Or.inl h)⟩)
  · exact Or.inr (Or.inr ⟨inPdf, hm, Or.inr (Or.inr h)⟩)

theorem opt_stageEv (env : Env) (o : CompressionOptions) (inp out : String) :
    ∀ ev ∈ (optimizeWithPymupdf env o inp out).2, stageEv o env.pid out inp ev := by
  intro ev hev
  rcases opt_events env o inp out ev hev with h | h
  · exact Or.inl h
  · exact Or.inr (Or.inr ⟨_, mem_stageTempNames_pymupdf o env.pid out, Or.inr (Or.inl h)⟩)

/-- Master trace characterisation of `compress`: every event is a stage
event, or the run succeeded and the event is the final directory creation or
the final move of a derived intermediate name onto the output path. -/
theorem compress_events (env : Env) (o : CompressionOptions) (inp out : String) :
    ∀ ev ∈ (compress env o inp out).2,
      stageEv o env.pid out inp ev ∨
      ((compress env o inp out).1 = .ok out ∧
        (ev = Ev.mkdirParents out ∨
         ∃ s, s ∈ stageTempNames o env.pid out ∧ ev = Ev.moveFile s out)) := by
  intro ev hev
  by_cases hin : env.inputExists
  case neg => simp [compress, hin] at hev
  case pos =>
  rcases h1 : optimizeWithPymupdf env o inp out with ⟨r1, t1⟩
  have hopt1 : ∀ e ∈ t1, stageEv o env.pid out inp e := by
    have := opt_stageEv env o inp out
    rw [h1] at this
    exact this
  cases r1 with
  | error e1 =>
    have ht : (compress env o inp out).2 = t1 := by simp [compress, hin, h1]
    rw [ht] at hev
    exact Or.inl (hopt1 ev hev)
  | ok tmp1 =>
    have htmp1 : tmp1 ∈ stageTempNames o env.pid out := by
      rw [opt_ok env o inp out tmp1 t1 h1]
      exact mem_stageTempNames_pymupdf o env.pid out
    rcases h2 : (if o.remove_unreferenced then cleanupWithPikepdf env tmp1 out
                 else (.ok tmp1, [])) with ⟨r2, t2⟩
    have hclean2 : ∀ e ∈ t2, stageEv o env.pid out inp e := by
      by_cases hru : o.remove_unreferenced
      · have := cleanup_stageEv env o tmp1 out inp htmp1
        simp only [hru, if_true] at h2
        rw [h2] at this
        exact this
      · simp only [hru, if_false] at h2
        cases h2
        intro e he
        exact absurd he (List.not_mem_nil e)
    cases r2 with
    | error e2 =>
      have ht : (compress env o inp out).2 = t1 ++ t2 := by
        simp [compress, hin, h1, h2]
      rw [ht] at hev
      rcases List.mem_append.1 hev with h | h
      · exact Or.inl (hopt1 ev h)
      · exact Or.inl (hclean2 ev h)
    | ok tmp2 =>
      have htmp2 : tmp2 ∈ stageTempNames o env.pid out := by
        by_cases hru : o.remove_unreferenced
        · simp only [hru, if_true] at h2
          rw [cleanup_ok env tmp1 out tmp2 t2 h2]
          exact mem_stageTempNames_pikepdf o env.pid out
        · simp only [hru, if_false] at h2
          cases h2
          exact htmp1
      rcases h3 : (if o.use_ghostscript then compressWithGhostscript env o tmp2 out
                   else (.ok tmp2, [])) with ⟨r3, t3⟩
      have hgs3 : ∀ e ∈ t3, stageEv o env.pid out inp e := by
        by_cases hgs : o.use_ghostscript
        · have := gs_stageEv env o tmp2 out inp htmp2
          simp only [hgs, if_true] at h3
          rw [h3] at this
          exact this
        · simp only [hgs, if_false] at h3
          cases h3
          intro e he
          exact absurd he (List.not_mem_nil e)
      cases r3 with
      | error e3 =>
        have ht : (compress env o inp out).2 = t1 ++ t2 ++ t3 := by
          simp [compress, hin, h1, h2, h3]
        rw [ht] at hev
        rcases List.mem_append.1 hev with h | h
        · rcases List.mem_append.1 h with h' | h'
          · exact Or.inl (hopt1 ev h')
          · exact Or.inl (hclean2 ev h')
        · exact Or.inl (hgs3 ev h)
      | ok tmp3 =>
        have htmp3 : tmp3 ∈ stageTempNames o env.pid out := by
          by_cases hgs : o.use_ghostscript
          · simp only [hgs, if_true] at h3
            rw [gs_ok env o tmp2 out tmp3 t3 h3]
            exact mem_stageTempNames_gs o env.pid out
          · simp only [hgs, if_false] at h3
            cases h3
            exact htmp2
        have hc : compress env o inp out
            = (.ok out, t1 ++ t2 ++ t3
                ++ [Ev.mkdirParents out, Ev.moveFile tmp3 out]) := by
          simp [compress, hin, h1, h2, h3]
        rw [hc] at hev
        simp only [List.mem_append, List.mem_cons, List.not_mem_nil, or_false,
          List.mem_singleton] at hev
        rcases hev with ((h | h) | h) | h | h
        · exact Or.inl (hopt1 ev h)
        · exact Or.inl (hclean2 ev h)
        · exact Or.inl (hgs3 ev h)
        · exact Or.inr ⟨by rw [hc], Or.inl h⟩
        · exact Or.inr ⟨by rw [hc], Or.inr ⟨tmp3, htmp3, h⟩⟩

/-! ## Claims -/

/-- Claim C9: for every output path, process identity and stage tag, the
intermediate file name is derived deterministically from the output path's
stem (`withSuffixEmpty`), the process id and a stage tag, and it is never
equal to the output path itself, so no intermediate write can land on the
caller's real output path before the final publish step. -/
theorem C9_temp_name_never_output (out : String) (pid : Nat) (tag : String) :
    tempName out pid tag
      = withSuffixEmpty out ++ "_" ++ toString pid ++ "_" ++ tag ++ ".pdf" ∧
    tempName out pid tag ≠ out :=
  ⟨rfl, tempName_ne out pid tag⟩

/-- Claim C3: when the input path does not exist, compress raises
`FileNotFoundError` before any stage runs and before any temporary
intermediate file is created — the event trace of the run is empty. -/
theorem C3_missing_input (env : Env) (o : CompressionOptions)
    (inp out : String) (h : env.inputExists = false) :
    compress env o inp out =
      (.error (.FileNotFoundError
        ("Input PDF \x27" ++ inp ++ "\x27 does not exist.")), []) := by
  simp [compress, h]

/-- Witness for C3 at a concrete run. -/
theorem C3_witness :
    compress { envAllOk with inputExists := false } {} "missing.pdf" "out.pdf" =
      (.error (.FileNotFoundError "Input PDF \x27missing.pdf\x27 does not exist."),
       []) :=
  C3_missing_input { envAllOk with inputExists := false } {} "missing.pdf"
    "out.pdf" rfl

/-- Counterexample to claim C4 as stated: a failure inside the metadata
scrub (sub-step 1) is not swallowed — with `remove_metadata` enabled (the
default) and a failing `doc.scrub`, the Structural Optimizer stage aborts
with that error instead of skipping the sub-step and completing. -/
theorem C4_counterexample :
    ({} : CompressionOptions).remove_metadata = true ∧
    (optimizeWithPymupdf { envAllOk with scrubOk := false } {}
        "in.pdf" "out.pdf").1
      = .error (.LibError "doc.scrub") :=
  ⟨rfl, rfl⟩

/-- Claim C4 as amended: within the Structural Optimizer stage only the
sub-steps font subsetting, image recompression and form flattening are
best-effort — the stage's entire outcome (result and events) is identical
whether or not those three sub-steps fail.  Failures of the remaining
sub-steps (metadata scrub, image removal, annotation removal) are not
caught, as the counterexample shows. -/
theorem C4_swallowed_substeps (env : Env) (o : CompressionOptions)
    (inp out : String) (b1 b2 b3 : Bool) :
    optimizeWithPymupdf
      { env with subsetFontsOk := b1, rewriteImagesOk := b2,
                 flattenFormsOk := b3 } o inp out
      = optimizeWithPymupdf env o inp out := rfl

/-- Claim C5: in a run whose Structural Optimizer stage succeeded, with
`remove_unreferenced` requested and pikepdf unavailable, compress fails hard
with the dedicated `RuntimeError` (the spec's ConfigurationError); the stage
is never silently skipped and no result is presented as if pruning had
happened. -/
theorem C5_pikepdf_unavailable (env : Env) (o : CompressionOptions)
    (inp out tmp1 : String) (t1 : List Ev)
    (hin : env.inputExists = true)
    (hopt : optimizeWithPymupdf env o inp out = (.ok tmp1, t1))
    (hru : o.remove_unreferenced = true)
    (hpk : env.pikepdfInstalled = false) :
    (compress env o inp out).1 =
      .error (.RuntimeError
        "pikepdf is not installed (set remove_unreferenced=False or install pikepdf).") := by
  simp [compress, hin, hopt, hru, cleanupWithPikepdf, hpk]

/-- Witness for C5 at a concrete run. -/
theorem C5_witness :
    (compress { envAllOk with pikepdfInstalled := false }
        { remove_unreferenced := true } "in.pdf" "out.pdf").1 =
      .error (.RuntimeError
        "pikepdf is not installed (set remove_unreferenced=False or install pikepdf).") :=
  C5_pikepdf_unavailable { envAllOk with pikepdfInstalled := false }
    { remove_unreferenced := true } "in.pdf" "out.pdf"
    (tempName "out.pdf" 7 "pymupdf")
    [Ev.readFile "in.pdf", Ev.writeFile (tempName "out.pdf" 7 "pymupdf")]
    rfl rfl rfl rfl

/-- Claim C10: in the External Re-distiller stage executable discovery
precedes preset validation — when no Ghostscript executable is discoverable
the stage raises the executable-not-found `RuntimeError` (the spec's
ConfigurationError) whatever the configured preset, so an invalid preset is
only ever reported when an executable was found. -/
theorem C10_discovery_before_validation (env : Env) (o : CompressionOptions)
    (inputPdf out : String)
    (hnone : gsCandidates.find? (fun c => env.gsInstalled.contains c) = none) :
    compressWithGhostscript env o inputPdf out
      = (.error (.RuntimeError
          "Ghostscript not found; install it or set use_ghostscript=False."),
         []) := by
  unfold compressWithGhostscript
  rw [hnone]

/-- Witness for C10 at a concrete run whose preset is also invalid. -/
theorem C10_witness :
    gsPresets.contains "bogus" = false ∧
    compressWithGhostscript { envAllOk with gsInstalled := [] }
        { gs_quality := "bogus" } "t.pdf" "o.pdf"
      = (.error (.RuntimeError
          "Ghostscript not found; install it or set use_ghostscript=False."),
         []) :=
  ⟨rfl, C10_discovery_before_validation { envAllOk with gsInstalled := [] }
    { gs_quality := "bogus" } "t.pdf" "o.pdf" rfl⟩

/-- Claim C1: on every successful run the Structural Optimizer (PyMuPDF)
stage runs first, the Resource Pruner (pikepdf) stage runs if and only if
`remove_unreferenced` (otherwise it contributes no events and passes the
artifact through), the External Re-distiller (Ghostscript) stage runs if and
only if `use_ghostscript`, and the run ends by publishing the last stage's
artifact to the output path; when neither optional stage is enabled the
published artifact is the Structural Optimizer's. -/
theorem C1_pipeline (env : Env) (o : CompressionOptions) (inp out r : String)
    (t : List Ev) (h : compress env o inp out = (.ok r, t)) :
    r = out ∧
    ∃ t1 t2 t3 tmp1 tmp2 tmp3,
      optimizeWithPymupdf env o inp out = (.ok tmp1, t1) ∧
      (if o.remove_unreferenced then
        cleanupWithPikepdf env tmp1 out = (.ok tmp2, t2)
       else tmp2 = tmp1 ∧ t2 = []) ∧
      (if o.use_ghostscript then
        compressWithGhostscript env o tmp2 out = (.ok tmp3, t3)
       else tmp3 = tmp2 ∧ t3 = []) ∧
      t = t1 ++ t2 ++ t3 ++ [Ev.mkdirParents out, Ev.moveFile tmp3 out] ∧
      (o.remove_unreferenced = false → o.use_ghostscript = false →
        tmp3 = tempName out env.pid "pymupdf") := by
  by_cases hin : env.inputExists
  case neg => simp [compress, hin] at h
  case pos =>
  rcases h1 : optimizeWithPymupdf env o inp out with ⟨r1, t1⟩
  cases r1 with
  | error e1 => simp [compress, hin, h1] at h
  | ok tmp1 =>
    rcases h2 : (if o.remove_unreferenced then cleanupWithPikepdf env tmp1 out
                 else (.ok tmp1, [])) with ⟨r2, t2⟩
    cases r2 with
    | error e2 => simp [compress, hin, h1, h2] at h
    | ok tmp2 =>
      rcases h3 : (if o.use_ghostscript then
                    compressWithGhostscript env o tmp2 out
                   else (.ok tmp2, [])) with ⟨r3, t3⟩
      cases r3 with
      | error e3 => simp [compress, hin, h1, h2, h3] at h
      | ok tmp3 =>
        have hc : compress env o inp out
            = (.ok out, t1 ++ t2 ++ t3
                ++ [Ev.mkdirParents out, Ev.moveFile tmp3 out]) := by
          simp [compress, hin, h1, h2, h3]
        rw [hc] at h
        have hr : r = out := by
          have := congrArg Prod.fst h
          simpa using this.symm
        have ht : t = t1 ++ t2 ++ t3
            ++ [Ev.mkdirParents out, Ev.moveFile tmp3 out] := by
          have := congrArg Prod.snd h
          simpa using this.symm
        refine ⟨hr, t1, t2, t3, tmp1, tmp2, tmp3, ?_, ?_, ?_, ht, ?_⟩
        · exact rfl
        · by_cases hru : o.remove_unreferenced
          · simpa [hru] using h2
          · simp [hru] at h2 ⊢
            exact ⟨h2.1.symm, h2.2⟩
        · by_cases hgs : o.use_ghostscript
          · simpa [hgs] using h3
          · simp [hgs] at h3 ⊢
            exact ⟨h3.1.symm, h3.2⟩
        · intro hru hgs
          simp only [hru, if_false] at h2
          simp only [hgs, if_false] at h3
          have e2 : tmp2 = tmp1 := by
            have := congrArg Prod.fst h2
            simpa using this.symm
          have e3 : tmp3 = tmp2 := by
            have := congrArg Prod.fst h3
            simpa using this.symm
          rw [e3, e2]
          exact opt_ok env o inp out tmp1 t1 h1

/-- Witness for C1 at a concrete successful run with both optional stages
disabled. -/
theorem C1_witness :
    "out.pdf" = "out.pdf" ∧
    ∃ t1 t2 t3 tmp1 tmp2 tmp3,
      optimizeWithPymupdf envAllOk {} "in.pdf" "out.pdf" = (.ok tmp1, t1) ∧
      (if ({} : CompressionOptions).remove_unreferenced then
        cleanupWithPikepdf envAllOk tmp1 "out.pdf" = (.ok tmp2, t2)
       else tmp2 = tmp1 ∧ t2 = []) ∧
      (if ({} : CompressionOptions).use_ghostscript then
        compressWithGhostscript envAllOk {} tmp2 "out.pdf" = (.ok tmp3, t3)
       else tmp3 = tmp2 ∧ t3 = []) ∧
      [Ev.readFile "in.pdf", Ev.writeFile "out_7_pymupdf.pdf",
       Ev.mkdirParents "out.pdf", Ev.moveFile "out_7_pymupdf.pdf" "out.pdf"]
        = t1 ++ t2 ++ t3 ++ [Ev.mkdirParents "out.pdf", Ev.moveFile tmp3 "out.pdf"] ∧
      (({} : CompressionOptions).remove_unreferenced = false →
       ({} : CompressionOptions).use_ghostscript = false →
        tmp3 = tempName "out.pdf" envAllOk.pid "pymupdf") :=
  C1_pipeline envAllOk {} "in.pdf" "out.pdf" "out.pdf"
    [Ev.readFile "in.pdf", Ev.writeFile "out_7_pymupdf.pdf",
     Ev.mkdirParents "out.pdf", Ev.moveFile "out_7_pymupdf.pdf" "out.pdf"]
    (by rfl)

/-- Claim C2: whenever the pipeline raises an error, no event of the run
writes, removes or moves a file at the output path — the output destination
is exactly as it was before `compress` was called, with no partial output. -/
theorem C2_error_output_untouched (env : Env) (o : CompressionOptions)
    (inp out : String) (e : Err) (t : List Ev)
    (h : compress env o inp out = (.error e, t)) :
    t.all (fun ev => !(touchesPath out ev)) = true := by
  rw [List.all_eq_true]
  intro ev hev
  have hev' : ev ∈ (compress env o inp out).2 := by rw [h]; exact hev
  rcases compress_events env o inp out ev hev' with hs | ⟨hok, _⟩
  · rcases hs with h' | ⟨a, h'⟩ | ⟨p, hp, h' | h' | h'⟩ <;> subst h'
    · rfl
    · rfl
    · rfl
    · have hne : p ≠ out := stageTempNames_ne_out o env.pid out p hp
      simp [touchesPath, hne]
    · have hne : p ≠ out := stageTempNames_ne_out o env.pid out p hp
      simp [touchesPath, hne]
  · rw [h] at hok
    simp at hok

/-- Witness for C2 at a concrete failing run (Ghostscript exits non-zero)
whose trace is non-empty. -/
theorem C2_witness :
    ((compress { envAllOk with gsReturncode := 1, gsStderr := "boom" }
        { use_ghostscript := true } "in.pdf" "out.pdf").2).all
      (fun ev => !(touchesPath "out.pdf" ev)) = true :=
  C2_error_output_untouched
    { envAllOk with gsReturncode := 1, gsStderr := "boom" }
    { use_ghostscript := true } "in.pdf" "out.pdf"
    (Err.RuntimeError "Ghostscript failed: boom")
    ((compress { envAllOk with gsReturncode := 1, gsStderr := "boom" }
        { use_ghostscript := true } "in.pdf" "out.pdf").2)
    (by rfl)

/-- Claim C6: with an executable found and a valid preset, the External
Re-distiller raises `RuntimeError` embedding the captured standard-error
text and leaves its input artifact in place when the subprocess exits
non-zero, and deletes the input artifact and returns the new artifact's
path when it exits zero. -/
theorem C6_gs_exit_status (env : Env) (o : CompressionOptions)
    (inputPdf out gsCmd : String)
    (hcmd : gsCandidates.find? (fun c => env.gsInstalled.contains c)
      = some gsCmd)
    (hq : gsPresets.contains (pyLower o.gs_quality) = true) :
    (env.gsReturncode ≠ 0 →
      (compressWithGhostscript env o inputPdf out).1
        = .error (.RuntimeError ("Ghostscript failed: " ++ env.gsStderr)) ∧
      Ev.removeFile inputPdf ∉ (compressWithGhostscript env o inputPdf out).2) ∧
    (env.gsReturncode = 0 →
      (compressWithGhostscript env o inputPdf out).1
        = .ok (tempName out env.pid ("gs_" ++ pyLower o.gs_quality)) ∧
      Ev.removeFile inputPdf ∈ (compressWithGhostscript env o inputPdf out).2) := by
  have hq' : pyLower o.gs_quality ∈ gsPresets := by simpa using hq
  have hres : compressWithGhostscript env o inputPdf out
      = (if env.gsReturncode = 0 then
          (.ok (tempName out env.pid ("gs_" ++ pyLower o.gs_quality)),
           [.runProc (gsArgs gsCmd (pyLower o.gs_quality)
              (tempName out env.pid ("gs_" ++ pyLower o.gs_quality)) inputPdf),
            .writeFile (tempName out env.pid ("gs_" ++ pyLower o.gs_quality)),
            .removeFile inputPdf])
         else
          (.error (.RuntimeError ("Ghostscript failed: " ++ env.gsStderr)),
           [.runProc (gsArgs gsCmd (pyLower o.gs_quality)
              (tempName out env.pid ("gs_" ++ pyLower o.gs_quality)) inputPdf),
            .writeFile (tempName out env.pid ("gs_" ++ pyLower o.gs_quality))])) := by
    unfold compressWithGhostscript
    rw [hcmd]
    simp [hq']
  constructor
  · intro hrc
    rw [hres, if_neg hrc]
    refine ⟨rfl, ?_⟩
    simp
  · intro hrc
    rw [hres, if_pos hrc]
    exact ⟨rfl, by simp⟩

/-- Witness for C6 at a concrete run with `gs` installed, the default valid
preset and exit status zero. -/
theorem C6_witness :
    (envAllOk.gsReturncode ≠ 0 →
      (compressWithGhostscript envAllOk {} "t.pdf" "o.pdf").1
        = .error (.RuntimeError ("Ghostscript failed: " ++ envAllOk.gsStderr)) ∧
      Ev.removeFile "t.pdf" ∉ (compressWithGhostscript envAllOk {} "t.pdf" "o.pdf").2) ∧
    (envAllOk.gsReturncode = 0 →
      (compressWithGhostscript envAllOk {} "t.pdf" "o.pdf").1
        = .ok (tempName "o.pdf" envAllOk.pid
            ("gs_" ++ pyLower ({} : CompressionOptions).gs_quality)) ∧
      Ev.removeFile "t.pdf" ∈ (compressWithGhostscript envAllOk {} "t.pdf" "o.pdf").2) :=
  C6_gs_exit_status envAllOk {} "t.pdf" "o.pdf" "gs" rfl rfl

/-- Helper: with an executable found and a valid (lowercased) preset, the
Ghostscript stage reduces to a single test on the subprocess exit status. -/
theorem gs_valid_run (env : Env) (o : CompressionOptions)
    (inputPdf out gsCmd : String)
    (hcmd : gsCandidates.find? (fun c => env.gsInstalled.contains c)
      = some gsCmd)
    (hq' : pyLower o.gs_quality ∈ gsPresets) :
    compressWithGhostscript env o inputPdf out
      = (if env.gsReturncode = 0 then
          (.ok (tempName out env.pid ("gs_" ++ pyLower o.gs_quality)),
           [.runProc (gsArgs gsCmd (pyLower o.gs_quality)
              (tempName out env.pid ("gs_" ++ pyLower o.gs_quality)) inputPdf),
            .writeFile (tempName out env.pid ("gs_" ++ pyLower o.gs_quality)),
            .removeFile inputPdf])
         else
          (.error (.RuntimeError ("Ghostscript failed: " ++ env.gsStderr)),
           [.runProc (gsArgs gsCmd (pyLower o.gs_quality)
              (tempName out env.pid ("gs_" ++ pyLower o.gs_quality)) inputPdf),
            .writeFile (tempName out env.pid ("gs_" ++ pyLower o.gs_quality))])) := by
  unfold compressWithGhostscript
  rw [hcmd]
  simp [hq']

/-- Counterexample to claim C7 as stated: the configured preset value
EBOOK is not a member of the enumeration, yet the stage accepts it (the
source lowercases the configured value before validating), so the stage
does not raise `ValueError` if and only if membership of the configured
value holds. -/
theorem C7_counterexample :
    gsPresets.contains "EBOOK" = false ∧
    (compressWithGhostscript envAllOk { gs_quality := "EBOOK" }
        "t.pdf" "o.pdf").1
      = .ok (tempName "o.pdf" 7 "gs_ebook") :=
  ⟨rfl, rfl⟩

/-- Claim C7 as amended: the External Re-distiller raises `ValueError` (the
spec's InvalidArgument) if and only if the lowercased configured preset is
not a member of the fixed enumeration; when the lowercased preset is a
member it is accepted and used in the subprocess argument vector.  (Case
variants of members, such as EBOOK, are therefore accepted.) -/
theorem C7_preset_validation (env : Env) (o : CompressionOptions)
    (inputPdf out gsCmd : String)
    (hcmd : gsCandidates.find? (fun c => env.gsInstalled.contains c)
      = some gsCmd) :
    (gsPresets.contains (pyLower o.gs_quality) = false ↔
      (compressWithGhostscript env o inputPdf out).1
        = .error (.ValueError
            ("Invalid Ghostscript quality preset: " ++ pyLower o.gs_quality))) ∧
    (gsPresets.contains (pyLower o.gs_quality) = true →
      Ev.runProc (gsArgs gsCmd (pyLower o.gs_quality)
          (tempName out env.pid ("gs_" ++ pyLower o.gs_quality)) inputPdf)
        ∈ (compressWithGhostscript env o inputPdf out).2) := by
  by_cases hq : gsPresets.contains (pyLower o.gs_quality) = true
  · have hq' : pyLower o.gs_quality ∈ gsPresets := by simpa using hq
    constructor
    · constructor
      · intro hf
        rw [hq] at hf
        cases hf
      · intro hres
        rw [gs_valid_run env o inputPdf out gsCmd hcmd hq'] at hres
        split at hres <;> simp at hres
    · intro _
      rw [gs_valid_run env o inputPdf out gsCmd hcmd hq']
      split <;> simp
  · have hqf : gsPresets.contains (pyLower o.gs_quality) = false := by
      simpa using hq
    have hq'' : pyLower o.gs_quality ∉ gsPresets := by simpa using hq
    have hres : compressWithGhostscript env o inputPdf out
        = (.error (.ValueError
            ("Invalid Ghostscript quality preset: " ++ pyLower o.gs_quality)),
           []) := by
      unfold compressWithGhostscript
      rw [hcmd]
      simp [hq'']
    constructor
    · constructor
      · intro _
        rw [hres]
      · intro _
        exact hqf
    · intro ht
      have hmem : pyLower o.gs_quality ∈ gsPresets := by simpa using ht
      exact absurd hmem hq''

/-- Witness for C7 at a concrete run with the mixed-case preset Printer,
which lowercases to a member and is passed to the subprocess. -/
theorem C7_witness :
    (gsPresets.contains (pyLower ({ gs_quality := "Printer" } :
        CompressionOptions).gs_quality) = false ↔
      (compressWithGhostscript envAllOk { gs_quality := "Printer" }
          "t.pdf" "o.pdf").1
        = .error (.ValueError ("Invalid Ghostscript quality preset: "
            ++ pyLower ({ gs_quality := "Printer" } :
                CompressionOptions).gs_quality))) ∧
    (gsPresets.contains (pyLower ({ gs_quality := "Printer" } :
        CompressionOptions).gs_quality) = true →
      Ev.runProc (gsArgs "gs"
          (pyLower ({ gs_quality := "Printer" } : CompressionOptions).gs_quality)
          (tempName "o.pdf" envAllOk.pid ("gs_" ++ pyLower
            ({ gs_quality := "Printer" } : CompressionOptions).gs_quality))
          "t.pdf")
        ∈ (compressWithGhostscript envAllOk { gs_quality := "Printer" }
            "t.pdf" "o.pdf").2) :=
  C7_preset_validation envAllOk { gs_quality := "Printer" } "t.pdf" "o.pdf"
    "gs" rfl

/-- Counterexample to claim C8 as stated: when the caller passes the same
path as input and output, the run succeeds and its final publish event
moves an artifact onto that path — the caller's input file is overwritten
by the pipeline. -/
theorem C8_counterexample :
    (compress envAllOk {} "same.pdf" "same.pdf").1 = .ok "same.pdf" ∧
    ((compress envAllOk {} "same.pdf" "same.pdf").2).any
      (touchesPath "same.pdf") = true :=
  ⟨rfl, by rfl⟩

/-- Claim C8 as amended: every write of a run targets a derived
intermediate name or the output path, every delete targets a derived
intermediate name (`writeDiscipline`); consequently, whenever the input
path differs from the output path and from every derived intermediate
name, no event of the run writes, removes or moves a file at the input
path. -/
theorem C8_frame (env : Env) (o : CompressionOptions) (inp out : String)
    (h1 : inp ≠ out) (h2 : inp ∉ stageTempNames o env.pid out) :
    ((compress env o inp out).2).all (writeDiscipline o env.pid out) = true ∧
    ((compress env o inp out).2).all (fun ev => !(touchesPath inp ev)) = true := by
  constructor
  · rw [List.all_eq_true]
    intro ev hev
    rcases compress_events env o inp out ev hev with hs | ⟨_, hpub⟩
    · rcases hs with h' | ⟨a, h'⟩ | ⟨p, hp, hsub⟩
      · subst h'; rfl
      · subst h'; rfl
      · rcases hsub with h' | h' | h' <;> subst h' <;>
          simp [writeDiscipline, hp]
    · rcases hpub with h' | ⟨s, hsmem, h'⟩
      · subst h'; simp [writeDiscipline]
      · subst h'; simp [writeDiscipline, hsmem]
  · rw [List.all_eq_true]
    intro ev hev
    rcases compress_events env o inp out ev hev with hs | ⟨_, hpub⟩
    · rcases hs with h' | ⟨a, h'⟩ | ⟨p, hp, hsub⟩
      · subst h'; rfl
      · subst h'; rfl
      · have hne : p ≠ inp := fun hpe => h2 (hpe ▸ hp)
        rcases hsub with h' | h' | h' <;> subst h' <;>
          simp [touchesPath, hne]
    · rcases hpub with h' | ⟨s, hsmem, h'⟩
      · subst h'; rfl
      · have hsne : s ≠ inp := fun hse => h2 (hse ▸ hsmem)
        have houtne : out ≠ inp := fun hoe => h1 hoe.symm
        subst h'
        simp [touchesPath, hsne, houtne]

/-- Witness for C8 at a concrete run with distinct, non-colliding paths. -/
theorem C8_witness :
    ((compress envAllOk {} "in.pdf" "out.pdf").2).all
      (writeDiscipline {} envAllOk.pid "out.pdf") = true ∧
    ((compress envAllOk {} "in.pdf" "out.pdf").2).all
      (fun ev => !(touchesPath "in.pdf" ev)) = true :=
  C8_frame envAllOk {} "in.pdf" "out.pdf" (by decide) (by decide)

end PdfCompressor
